import Mathlib

/-!
Verification of the toniebox tag-triggered playback controller.

The definitions below are a shallow embedding of the playback engine
(src/app/audio_player.py, class AudioPlayer), the RFID session loop
(AudioPlayer.start_player) and the RFID reader error handling
(src/rfid_reader.py, class RFIDReader).  Threads are modelled by an
explicit list of live playback tasks plus the cooperative cancellation
flag; the shared "currently playing" field is, as in the code, an
optional string whose error values are the formatted strings the code
assigns.  Blocking joins are modelled as completing within their bound
(the playback thread observes the cancellation event at each 100ms tick),
which is the behaviour the code relies on.
-/

namespace Toniebox

/-- RFID tag identifiers as returned by SimpleMFRC522 in
src/app/audio_player.py: integers; the session loop uses 0 as the
"no tag tracked" sentinel (current_id = 0). -/
abbrev TagId := Nat

/-- The rfid_audio table: id to file, unique key per id
(models.RFIDAudio / model.RFIDAudio). -/
abbrev AudioMapping := List (TagId × String)

/-- AudioPlayer.get_file: first record with the given id, or none. -/
def getFile (m : AudioMapping) (id : TagId) : Option String :=
  match m.find? (fun p => p.1 == id) with
  | some p => some p.2
  | none => none

/-- Observable audio-backend and thread effects performed by the engine:
pg.mixer.music.stop / load / play, and th.Thread(...).start. -/
inductive Eff where
  | stopMusic : Eff
  | loadMusic (f : String) : Eff
  | playMusic : Eff
  | spawnTask (f : String) : Eff
  deriving DecidableEq, Repr

/-- State of an AudioPlayer (src/app/audio_player.py).
`current_audio` is the shared state read by the UI under audio_lock;
`playback_event` is the threading.Event used as cancellation signal;
`liveTasks` is the set (list) of playback threads currently alive, each
identified by the file it plays.  The code stores a single handle
`audio_thread`; modelling a list keeps the at-most-one-task property a
fact to prove rather than a fact of the type. -/
structure Engine where
  mapping : AudioMapping
  media : List String
  current_audio : Option String
  playback_event : Bool
  liveTasks : List String
  deriving Repr, DecidableEq

/-- The string assigned by AudioPlayer.play for an unmapped id. -/
def unknownIdMsg (id : TagId) : String := "Unknown ID: " ++ toString id

/-- The string assigned by AudioPlayer._play_audio for a missing file. -/
def fileNotFoundMsg (f : String) : String := "File not found: " ++ f

/-- The finally-block of AudioPlayer._play_audio: clear current_audio
only if it still equals the file this task was started for. -/
def taskFinallyClear (f : String) (cur : Option String) : Option String :=
  if cur = some f then none else cur

/-- Joining the live playback threads after playback_event has been set,
for a caller that does NOT hold audio_lock (the direct stop() calls: the
session-loop departure path and the menu): within the bounded join each
thread leaves its busy-wait loop, acquires the free lock, and runs its
finally block (AudioPlayer.stop, lines 190-192, with the thread body
lines 165-176).  The stop() call made from inside _play_audio_track is
different: that caller holds audio_lock, so the join times out there;
the faithful thread-level model of that path is stopUnderLock below. -/
def joinLive (e : Engine) : Engine :=
  match e.liveTasks with
  | [] => e
  | f :: _ => { e with liveTasks := [],
                       current_audio := taskFinallyClear f e.current_audio }

/-- AudioPlayer.stop: set playback_event, stop the mixer (exceptions from
pg.mixer.music.stop are caught and logged, so the operation is total),
then join the playback thread with a bounded wait. -/
def engineStop (e : Engine) : Engine × List Eff :=
  (joinLive { e with playback_event := true }, [Eff.stopMusic])

/-- AudioPlayer._play_audio_track: under audio_lock, stop any current
audio, set current_audio to the new file, clear playback_event, and
start a new playback thread.  This definition is faithful for the
shared-state fields (mapping, media, current_audio, playback_event), the
emitted effects, and the newly spawned task, and the liveTasks field
carries only that new task: it is the idealized join semantics in which
the superseded thread has fully exited before the new one starts.  At
thread granularity the join inside _play_audio_track in fact times out
(the caller holds audio_lock, which the superseded thread's finally
block needs), so the old thread is still alive, in its exit path, when
the new one starts; the faithful thread-level model of this is
playTrackThreads below, against which claim C1 is settled. -/
def playAudioTrack (f : String) (e : Engine) : Engine × List Eff :=
  let s := engineStop e
  ({ s.1 with current_audio := some f, playback_event := false,
              liveTasks := [f] },
   s.2 ++ [Eff.spawnTask f])

/-- AudioPlayer.play: look the id up in the mapping; if absent, set
current_audio to the unknown-id message and return without touching
playback; otherwise hand the file to _play_audio_track. -/
def enginePlay (id : TagId) (e : Engine) : Engine × List Eff :=
  match getFile e.mapping id with
  | none => ({ e with current_audio := some (unknownIdMsg id) }, [])
  | some f => playAudioTrack f e

/-- AudioPlayer.play_file: direct playback bypassing the mapping. -/
def enginePlayFile (f : String) (e : Engine) : Engine × List Eff :=
  playAudioTrack f e

/-- A playback thread exiting: it is removed from the live set and its
finally block clears current_audio if unchanged. -/
def taskExit (f : String) (e : Engine) : Engine :=
  { e with liveTasks := e.liveTasks.erase f,
           current_audio := taskFinallyClear f e.current_audio }

/-- The head of AudioPlayer._play_audio, run by the spawned thread: check
os.path.exists(media_path/file); if missing, set current_audio to the
file-not-found message and return (running the finally block); otherwise
load and start the music and enter the busy-wait loop, staying alive. -/
def taskCheck (e : Engine) : Engine × List Eff :=
  match e.liveTasks with
  | [] => (e, [])
  | f :: _ =>
    if f ∈ e.media then (e, [Eff.loadMusic f, Eff.playMusic])
    else (taskExit f { e with current_audio := some (fileNotFoundMsg f) }, [])

/-- AudioPlayer.__init__: no audio playing, no live thread. -/
def engineInit (m : AudioMapping) (media : List String) : Engine :=
  { mapping := m, media := media, current_audio := none,
    playback_event := false, liveTasks := [] }

/-! Session loop: AudioPlayer.start_player (src/app/audio_player.py,
lines 356-400).  Each pass of the while loop reads the reader once and
reacts; exceptions inside the loop body reset both counters. -/

/-- Outcome of one rfid_reader.read_tag_no_block call as seen by the
session loop: a tag id, no tag present, or an exception. -/
inductive ReadResult where
  | tag (id : TagId) : ReadResult
  | absent : ReadResult
  | fail : ReadResult

/-- The local state of the start_player loop: the tracked tag
(current_id, 0 when none) and the consecutive-absent-read counter
(none_counter). -/
structure LoopState where
  current_id : TagId
  none_counter : Nat
  deriving Repr, DecidableEq

/-- PlaybackEngine invocations the session loop performs. -/
inductive Call where
  | play (id : TagId) : Call
  | stop : Call
  deriving DecidableEq, Repr

/-- One pass of the start_player while-loop body, also updating the
engine it drives.  Order as in the code: handle a non-absent read
(fire play on a changed id), update none_counter, then the
departure check (none_counter >= 2 fires stop and resets both
counters).  On an exception both counters are reset. -/
def sessionTick (s : LoopState) (e : Engine) :
    ReadResult → LoopState × Engine × List Call
  | .fail => (⟨0, 0⟩, e, [])
  | .tag id =>
    if id ≠ s.current_id then
      (⟨id, 0⟩, (enginePlay id e).1, [Call.play id])
    else
      (⟨s.current_id, 0⟩, e, [])
  | .absent =>
    if s.none_counter + 1 ≥ 2 then
      (⟨0, 0⟩, (engineStop e).1, [Call.stop])
    else
      (⟨s.current_id, s.none_counter + 1⟩, e, [])

/-- Run the session loop over a list of reads, collecting the engine
calls it makes. -/
def sessionRun (s : LoopState) (e : Engine) :
    List ReadResult → LoopState × Engine × List Call
  | [] => (s, e, [])
  | r :: rs =>
    let t := sessionTick s e r
    let u := sessionRun t.1 t.2.1 rs
    (u.1, u.2.1, t.2.2 ++ u.2.2)

/-! RFID reader: src/rfid_reader.py, class RFIDReader. -/

/-- Reader health state: the consecutive-error counter and its
configured threshold (__init__ sets max_consecutive_errors = 3). -/
structure Reader where
  consecutive_errors : Nat
  max_consecutive_errors : Nat
  deriving Repr, DecidableEq

/-- RFIDReader._handle_read_error: increment consecutive_errors; when it
reaches max_consecutive_errors, reset the hardware once and clear the
counter.  The second component counts the _reset_reader calls made. -/
def handleReadError (r : Reader) : Reader × Nat :=
  let c := r.consecutive_errors + 1
  if c ≥ r.max_consecutive_errors then
    ({ r with consecutive_errors := 0 }, 1)
  else
    ({ r with consecutive_errors := c }, 0)

/-- Outcome of one self.reader.read_no_block() hardware call. -/
inductive PollResult where
  | tag (id : TagId) : PollResult
  | noTag : PollResult
  | err : PollResult

/-- RFIDReader.read_tag_no_block (error path and success metrics; the
time-driven proactive reinit is outside this model): returns the id read,
the updated reader health, and the number of resets performed. -/
def readTagNoBlock (r : Reader) : PollResult → Option TagId × Reader × Nat
  | .tag id => (some id, { r with consecutive_errors := 0 }, 0)
  | .noTag => (none, r, 0)
  | .err => (none, handleReadError r)

/-- What RFIDReader.read_with_timeout observes at the head of one loop
iteration: the elapsed time since start_time, whether cancel_event is
set, and the poll outcome. -/
structure RwtTick where
  elapsed : Nat
  cancelled : Bool
  poll : PollResult

/-- Accumulated state of a read_with_timeout run: the local retries
counter, the _reset_reader calls performed, and self.consecutive_errors
(which this method never increments). -/
structure RwtState where
  retries : Nat
  resets : Nat
  consecutive_errors : Nat
  deriving Repr, DecidableEq

/-- RFIDReader.read_with_timeout over a list of observed iterations.
Per iteration, in code order: return (None, None) when a nonzero timeout
has elapsed; return (None, None) when cancel_event is set; else poll.
A tag returns it (resetting consecutive_errors via
_update_success_metrics); an exception increments retries and resets the
reader, giving up with (None, None) once retries exceeds max_retries.
The first component is none while the loop is still polling when the
observation list ends, and some r once the call returns r. -/
def readWithTimeout (timeout maxRetries : Nat) :
    List RwtTick → RwtState → Option (Option TagId) × RwtState
  | [], st => (none, st)
  | t :: ts, st =>
    if timeout ≠ 0 ∧ timeout < t.elapsed then (some none, st)
    else if t.cancelled then (some none, st)
    else
      match t.poll with
      | .tag id => (some (some id), { st with consecutive_errors := 0 })
      | .noTag => readWithTimeout timeout maxRetries ts st
      | .err =>
        if maxRetries < st.retries + 1 then
          (some none, { st with retries := st.retries + 1,
                                resets := st.resets + 1 })
        else
          readWithTimeout timeout maxRetries ts
            { st with retries := st.retries + 1, resets := st.resets + 1 }

/-! Volume control: AudioPlayer.set_volume / get_volume
(src/app/audio_player.py, lines 310-354). -/

/-- The stored volume attribute (always set by __init__). -/
structure VolumeState where
  current_volume : Int
  deriving Repr, DecidableEq

/-- AudioPlayer.set_volume: clamp the percentage to [0, 100], apply it to
the mixer, store it, return True; if the mixer call raises, the error is
caught, nothing is stored and False is returned.  Components: success
flag, new state, volumes applied to the mixer (as clamped percentages;
the 1/100 unit conversion for pygame is not modelled). -/
def setVolume (s : VolumeState) (volume_percent : Int) (mixerFails : Bool) :
    Bool × VolumeState × List Int :=
  let clamped := max 0 (min 100 volume_percent)
  if mixerFails then (false, s, [])
  else (true, { current_volume := clamped }, [clamped])

/-- AudioPlayer.get_volume: the attribute exists after __init__, so the
stored value is returned. -/
def getVolume (s : VolumeState) : Int := s.current_volume

/-! Thread-level model of the playback engine.

The Engine model above uses the idealized join semantics; the claim
about task liveness needs the actual thread behaviour of
src/app/audio_player.py, where the two stop() call sites differ:

- stop() called from _play_audio_track runs with audio_lock held (line
  129).  The playback thread's finally block must acquire audio_lock
  (lines 173-175) to terminate, so the join with timeout 1.0 (line 192)
  returns with the thread still alive whenever there is one: the old
  thread is still live, blocked in its exit path, when the new thread is
  started on line 142.
- stop() called without the lock (session-loop departure, menu stop)
  lets the thread acquire the lock, run its finally block and die within
  the join bound.

Each live thread is tracked with a phase: pending (spawned, has not
reached the existence check), busy (loaded and playing, inside the
while loop), exiting (left the loop or returned; only the finally block,
which needs audio_lock, remains).  Nothing in the state type bounds the
number of threads or of non-exiting threads. -/

/-- Lifecycle phase of a playback thread running _play_audio. -/
inductive Phase where
  | pending : Phase
  | busy : Phase
  | exiting : Phase
  deriving DecidableEq, Repr

/-- One live playback thread: the file it was started for and where in
_play_audio it currently is. -/
structure RThread where
  file : String
  phase : Phase
  deriving DecidableEq, Repr

/-- Thread-level state of an AudioPlayer. -/
structure Player where
  mapping : AudioMapping
  media : List String
  current_audio : Option String
  playback_event : Bool
  threads : List RThread
  deriving DecidableEq, Repr

/-- Every live thread moved to its exit path: with playback_event set
and the mixer stopped, a busy thread leaves its while loop within one
100ms tick and blocks at its finally; a pending thread runs through
with the event already set and likewise ends up needing audio_lock
(its lock-guarded writes are deferred past the lock and outside this
model). -/
def markExiting (ts : List RThread) : List RThread :=
  ts.map (fun t => { t with phase := Phase.exiting })

/-- stop() invoked from _play_audio_track, i.e. with audio_lock held by
the caller: playback_event is set and the mixer stopped, the live
threads reach the point where each needs audio_lock, but none can
acquire the lock the caller holds, so the bounded join times out: no
thread is removed and no finally block runs. -/
def stopUnderLock (p : Player) : Player :=
  { p with playback_event := true, threads := markExiting p.threads }

/-- _play_audio_track at thread granularity: the under-lock stop, then
the assignment of current_audio, the clearing of playback_event, and
the spawn of the new thread -- with the superseded threads still live
in their exit paths. -/
def playTrackThreads (f : String) (p : Player) : Player :=
  let s := stopUnderLock p
  { s with current_audio := some f, playback_event := false,
           threads := s.threads ++ [⟨f, Phase.pending⟩] }

/-- AudioPlayer.play at thread granularity. -/
def playThreads (id : TagId) (p : Player) : Player :=
  match getFile p.mapping id with
  | none => { p with current_audio := some (unknownIdMsg id) }
  | some f => playTrackThreads f p

/-- A thread completing its exit: the finally block clears
current_audio only if it still names this thread's file, and the thread
terminates. -/
def runFinally (cur : Option String) (t : RThread) : Option String :=
  taskFinallyClear t.file cur

/-- stop() invoked without audio_lock held (session-loop departure,
menu): the event is set, the mixer stopped, and within the bounded join
the live threads leave their loops, acquire the free lock one after the
other, run their finally blocks and terminate. -/
def stopFree (p : Player) : Player :=
  { p with playback_event := true,
           current_audio := p.threads.foldl runFinally p.current_audio,
           threads := [] }

/-- The first thread in the given phase acquires audio_lock, runs its
finally block and terminates (a busy thread does so after its track
ends or it observes playback_event; an exiting thread as soon as the
lock is free). -/
def exitFirst (ph : Phase) (cur : Option String) :
    List RThread → List RThread × Option String
  | [] => ([], cur)
  | t :: ts =>
    if t.phase = ph then (ts, taskFinallyClear t.file cur)
    else
      let r := exitFirst ph cur ts
      (t :: r.1, r.2)

/-- The first pending thread runs the head of _play_audio: an existing
file is loaded and started and the thread enters its busy loop; a
missing file makes the thread write the file-not-found message and
terminate through its finally block. -/
def checkFirstPending (media : List String) (cur : Option String) :
    List RThread → List RThread × Option String
  | [] => ([], cur)
  | t :: ts =>
    if t.phase = Phase.pending then
      if t.file ∈ media then ({ t with phase := Phase.busy } :: ts, cur)
      else (ts, taskFinallyClear t.file (some (fileNotFoundMsg t.file)))
    else
      let r := checkFirstPending media cur ts
      (t :: r.1, r.2)

/-- Interleaving alphabet at thread granularity: the public engine
operations plus the scheduling points of the playback threads. -/
inductive ROp where
  | play (id : TagId) : ROp
  | playFile (f : String) : ROp
  | stop : ROp
  | check : ROp
  | finish : ROp
  | reap : ROp

/-- One step of the thread-level system. -/
def runROp (p : Player) : ROp → Player
  | .play id => playThreads id p
  | .playFile f => playTrackThreads f p
  | .stop => stopFree p
  | .check =>
    let r := checkFirstPending p.media p.current_audio p.threads
    { p with threads := r.1, current_audio := r.2 }
  | .finish =>
    let r := exitFirst Phase.busy p.current_audio p.threads
    { p with threads := r.1, current_audio := r.2 }
  | .reap =>
    let r := exitFirst Phase.exiting p.current_audio p.threads
    { p with threads := r.1, current_audio := r.2 }

/-- Run a sequence of thread-level steps. -/
def runROps (ops : List ROp) (p : Player) : Player := ops.foldl runROp p

/-- AudioPlayer.__init__ at thread granularity. -/
def playerInit (m : AudioMapping) (media : List String) : Player :=
  { mapping := m, media := media, current_audio := none,
    playback_event := false, threads := [] }

/-- The live threads that have not yet entered their exit path (still
pending or inside the busy loop). -/
def activeThreads (ts : List RThread) : List RThread :=
  ts.filter (fun t => t.phase != Phase.exiting)

/-! Helper lemmas. -/

theorem length_fileNotFoundMsg (f : String) :
    (fileNotFoundMsg f).length = 16 + f.length := by
  have h : (fileNotFoundMsg f).length = ("File not found: ").length + f.length :=
    String.length_append _ _
  simpa using h

/-- The file-not-found message never coincides with the file name itself,
so the finally-block of a task that hit the missing-file path does not
clear the error it just reported. -/
theorem fileNotFoundMsg_ne (f : String) : fileNotFoundMsg f ≠ f := by
  intro h
  have hl := congrArg String.length h
  rw [length_fileNotFoundMsg] at hl
  omega

theorem joinLive_media (e : Engine) : (joinLive e).media = e.media := by
  cases h : e.liveTasks <;> simp [joinLive, h]

theorem playAudioTrack_liveTasks (f : String) (e : Engine) :
    (playAudioTrack f e).1.liveTasks = [f] := rfl

theorem playAudioTrack_media (f : String) (e : Engine) :
    (playAudioTrack f e).1.media = e.media := by
  simp [playAudioTrack, engineStop, joinLive_media]

theorem playAudioTrack_effects (f : String) (e : Engine) :
    (playAudioTrack f e).2 = [Eff.stopMusic, Eff.spawnTask f] := rfl

theorem taskCheck_playing (e : Engine) (f : String) (hl : e.liveTasks = [f])
    (hm : f ∈ e.media) : taskCheck e = (e, [Eff.loadMusic f, Eff.playMusic]) := by
  simp only [taskCheck, hl]
  rw [if_pos hm]

theorem taskCheck_missing (e : Engine) (f : String) (hl : e.liveTasks = [f])
    (hm : f ∉ e.media) :
    taskCheck e =
      (taskExit f { e with current_audio := some (fileNotFoundMsg f) }, []) := by
  simp only [taskCheck, hl]
  rw [if_neg hm]

theorem activeThreads_markExiting (ts : List RThread) :
    activeThreads (markExiting ts) = [] := by
  induction ts with
  | nil => rfl
  | cons t ts ih => simpa [markExiting, activeThreads, List.filter_cons] using ih

theorem phase_of_mem_markExiting (ts : List RThread) :
    ∀ a ∈ markExiting ts, a.phase = Phase.exiting := by
  intro a ha
  simp only [markExiting, List.mem_map] at ha
  obtain ⟨b, hb, rfl⟩ := ha
  rfl

theorem exitFirst_active_le (ph : Phase) (cur : Option String) (ts : List RThread) :
    (activeThreads (exitFirst ph cur ts).1).length ≤ (activeThreads ts).length := by
  induction ts generalizing cur with
  | nil => simp [exitFirst]
  | cons t ts ih =>
    simp only [exitFirst]
    by_cases h : t.phase = ph
    · rw [if_pos h]
      simp only [activeThreads, List.filter_cons]
      by_cases ha : (t.phase != Phase.exiting) = true
      · rw [if_pos ha]
        simp only [List.length_cons]
        omega
      · rw [if_neg ha]
    · rw [if_neg h]
      simp only [activeThreads, List.filter_cons]
      by_cases ha : (t.phase != Phase.exiting) = true
      · rw [if_pos ha, if_pos ha]
        simp only [List.length_cons]
        exact Nat.succ_le_succ (ih cur)
      · rw [if_neg ha, if_neg ha]
        exact ih cur

theorem checkFirstPending_active_le (media : List String) (cur : Option String)
    (ts : List RThread) :
    (activeThreads (checkFirstPending media cur ts).1).length ≤
      (activeThreads ts).length := by
  induction ts generalizing cur with
  | nil => simp [checkFirstPending]
  | cons t ts ih =>
    simp only [checkFirstPending]
    by_cases hp : t.phase = Phase.pending
    · rw [if_pos hp]
      by_cases hm : t.file ∈ media
      · rw [if_pos hm]
        simp [activeThreads, List.filter_cons, hp]
      · rw [if_neg hm]
        simp only [activeThreads, List.filter_cons]
        by_cases ha : (t.phase != Phase.exiting) = true
        · rw [if_pos ha]
          simp only [List.length_cons]
          omega
        · rw [if_neg ha]
    · rw [if_neg hp]
      simp only [activeThreads, List.filter_cons]
      by_cases ha : (t.phase != Phase.exiting) = true
      · rw [if_pos ha, if_pos ha]
        simp only [List.length_cons]
        exact Nat.succ_le_succ (ih cur)
      · rw [if_neg ha, if_neg ha]
        exact ih cur

theorem runROp_active_le (p : Player) (op : ROp)
    (h : (activeThreads p.threads).length ≤ 1) :
    (activeThreads (runROp p op).threads).length ≤ 1 := by
  cases op with
  | play id =>
    simp only [runROp, playThreads]
    cases getFile p.mapping id with
    | none => exact h
    | some f =>
      simp [playTrackThreads, stopUnderLock, activeThreads, List.filter_append,
        activeThreads_markExiting]
      exact phase_of_mem_markExiting p.threads
  | playFile f =>
    simp [runROp, playTrackThreads, stopUnderLock, activeThreads, List.filter_append,
      activeThreads_markExiting]
    exact phase_of_mem_markExiting p.threads
  | stop => simp [runROp, stopFree, activeThreads]
  | check => exact le_trans (checkFirstPending_active_le p.media p.current_audio p.threads) h
  | finish => exact le_trans (exitFirst_active_le Phase.busy p.current_audio p.threads) h
  | reap => exact le_trans (exitFirst_active_le Phase.exiting p.current_audio p.threads) h

theorem runROps_active_le (ops : List ROp) (p : Player)
    (h : (activeThreads p.threads).length ≤ 1) :
    (activeThreads (runROps ops p).threads).length ≤ 1 := by
  induction ops generalizing p with
  | nil => exact h
  | cons op rest ih =>
    have h1 := runROp_active_le p op h
    simpa [runROps, List.foldl_cons] using ih (runROp p op) h1

/-! Claims. -/

/-- Claim C1 counterexample: with 1 mapped to "a.mp3" and 2 mapped to
"b.mp3" (both files present), play(1) followed by the thread's check and
then play(2) leaves TWO playback tasks live at once: play(2)'s stop()
runs holding audio_lock, the first task's finally block needs that very
lock, so the bounded join times out and the first task is still alive,
in its exit path, when the second task is spawned.  This refutes the
claim that each play joins any in-flight playback task before starting
a new one and that at most one playback task is live at any time. -/
theorem superseded_task_still_live_cex :
    (runROps [ROp.play 1, ROp.check, ROp.play 2]
        (playerInit [(1, "a.mp3"), (2, "b.mp3")] ["a.mp3", "b.mp3"])).threads =
      [⟨"a.mp3", Phase.exiting⟩, ⟨"b.mp3", Phase.pending⟩] ∧
    2 ≤ (runROps [ROp.play 1, ROp.check, ROp.play 2]
        (playerInit [(1, "a.mp3"), (2, "b.mp3")] ["a.mp3", "b.mp3"])).threads.length := by
  refine ⟨by decide, by decide⟩

/-- Claim C1 amended: at most one Playing state is observable at any
instant (the shared state is the single current_audio field), and at
most one playback task is in its active -- pending or busy -- phase at
any time; each play signals cancellation to any in-flight task and
attempts a bounded join before spawning a new task, but since play
holds audio_lock, which the superseded task's finally block needs, the
join times out and superseded tasks remain live in their exit paths
while the new task starts. -/
theorem at_most_one_active_playback_task (m : AudioMapping)
    (media : List String) (ops : List ROp) :
    (activeThreads (runROps ops (playerInit m media)).threads).length ≤ 1 :=
  runROps_active_le ops (playerInit m media) (by simp [playerInit, activeThreads])

/-- Claim C2: while tag t is tracked (current_id = t), any number of
further reads of the same id t is a no-op of the session loop: play is
not invoked, the engine (hence playback) is untouched, and the tracked
id stays t. -/
theorem same_tag_repeat_read_noop (s : LoopState) (e : Engine) (t : TagId)
    (n : Nat) (htrack : s.current_id = t) (ht : t ≠ 0) :
    (sessionRun s e (List.replicate n (ReadResult.tag t))).1.current_id = t ∧
    (sessionRun s e (List.replicate n (ReadResult.tag t))).2.1 = e ∧
    (sessionRun s e (List.replicate n (ReadResult.tag t))).2.2 = [] := by
  induction n generalizing s with
  | zero => simp [sessionRun, htrack]
  | succ k ih =>
    have htick : sessionTick s e (ReadResult.tag t) = (⟨t, 0⟩, e, []) := by
      simp [sessionTick, htrack]
    have hrest := ih ⟨t, 0⟩ rfl
    simp only [List.replicate_succ, sessionRun, htick]
    exact ⟨hrest.1, hrest.2.1, by simp [hrest.2.2]⟩

theorem same_tag_repeat_read_noop_witness :
    (sessionRun ⟨7, 0⟩ (engineInit [] [])
        (List.replicate 3 (ReadResult.tag 7))).1.current_id = 7 ∧
    (sessionRun ⟨7, 0⟩ (engineInit [] [])
        (List.replicate 3 (ReadResult.tag 7))).2.1 = engineInit [] [] ∧
    (sessionRun ⟨7, 0⟩ (engineInit [] [])
        (List.replicate 3 (ReadResult.tag 7))).2.2 = [] :=
  same_tag_repeat_read_noop ⟨7, 0⟩ (engineInit [] []) 7 3 rfl (by decide)

/-- Claim C3: a tracked tag followed by two consecutive absent reads is
a departure: across those two ticks the session loop invokes stop
exactly once, resets current_id to the sentinel 0 and none_counter to 0,
and the playback state becomes Idle (current_audio = none). -/
theorem departure_stops_once (s : LoopState) (e : Engine) (t : TagId)
    (f : String) (htrack : s.current_id = t) (ht : t ≠ 0)
    (hnc : s.none_counter = 0) (hplay : e.current_audio = some f)
    (hlive : e.liveTasks = [f]) :
    (sessionRun s e [ReadResult.absent, ReadResult.absent]).1 = ⟨0, 0⟩ ∧
    (sessionRun s e [ReadResult.absent, ReadResult.absent]).2.2 = [Call.stop] ∧
    (sessionRun s e [ReadResult.absent, ReadResult.absent]).2.1.current_audio = none := by
  have h1 : sessionTick s e ReadResult.absent = (⟨s.current_id, 1⟩, e, []) := by
    simp [sessionTick, hnc]
  have h2 : sessionTick ⟨s.current_id, 1⟩ e ReadResult.absent =
      (⟨0, 0⟩, (engineStop e).1, [Call.stop]) := by
    simp [sessionTick]
  have hstop : (engineStop e).1.current_audio = none := by
    simp [engineStop, joinLive, hlive, taskFinallyClear, hplay]
  simp [sessionRun, h1, h2, hstop]

theorem departure_stops_once_witness :
    (sessionRun ⟨7, 0⟩ ⟨[], [], some "a.mp3", false, ["a.mp3"]⟩
        [ReadResult.absent, ReadResult.absent]).1 = ⟨0, 0⟩ ∧
    (sessionRun ⟨7, 0⟩ ⟨[], [], some "a.mp3", false, ["a.mp3"]⟩
        [ReadResult.absent, ReadResult.absent]).2.2 = [Call.stop] ∧
    (sessionRun ⟨7, 0⟩ ⟨[], [], some "a.mp3", false, ["a.mp3"]⟩
        [ReadResult.absent, ReadResult.absent]).2.1.current_audio = none :=
  departure_stops_once ⟨7, 0⟩ ⟨[], [], some "a.mp3", false, ["a.mp3"]⟩ 7 "a.mp3"
    rfl (by decide) rfl rfl rfl

/-- Claim C4: playing an unmapped id u performs no effects and spawns no
task, only setting the shared state to the unknown-id error string; a
subsequent play of a mapped id k whose file is in the media directory
recovers: the state becomes Playing(file), a fresh task is spawned, and
its existence check proceeds to load and start the audio. -/
theorem unknown_id_error_then_recovery (e : Engine) (u k : TagId) (f : String)
    (hu : getFile e.mapping u = none) (hk : getFile e.mapping k = some f)
    (hf : f ∈ e.media) :
    (enginePlay u e).2 = [] ∧
    (enginePlay u e).1.current_audio = some (unknownIdMsg u) ∧
    (enginePlay u e).1.liveTasks = e.liveTasks ∧
    (enginePlay k (enginePlay u e).1).1.current_audio = some f ∧
    (enginePlay k (enginePlay u e).1).1.liveTasks = [f] ∧
    Eff.spawnTask f ∈ (enginePlay k (enginePlay u e).1).2 ∧
    taskCheck (enginePlay k (enginePlay u e).1).1 =
      ((enginePlay k (enginePlay u e).1).1, [Eff.loadMusic f, Eff.playMusic]) := by
  have h1 : enginePlay u e = ({ e with current_audio := some (unknownIdMsg u) }, []) := by
    simp [enginePlay, hu]
  have hkey : enginePlay k ({ e with current_audio := some (unknownIdMsg u) } : Engine) =
      playAudioTrack f ({ e with current_audio := some (unknownIdMsg u) } : Engine) := by
    simp only [enginePlay, hk]
  refine ⟨by rw [h1], by rw [h1], by rw [h1], ?_, ?_, ?_, ?_⟩
  · rw [h1]
    simp only []
    rw [hkey]
    exact rfl
  · rw [h1]
    simp only []
    rw [hkey]
    exact rfl
  · rw [h1]
    simp only []
    rw [hkey, playAudioTrack_effects]
    simp
  · rw [h1]
    simp only []
    rw [hkey]
    exact taskCheck_playing _ f (playAudioTrack_liveTasks f _)
      (by rw [playAudioTrack_media]; exact hf)

theorem unknown_id_error_then_recovery_witness :
    (enginePlay 1 (engineInit [(2, "song.mp3")] ["song.mp3"])).2 = [] ∧
    (enginePlay 1 (engineInit [(2, "song.mp3")] ["song.mp3"])).1.current_audio =
      some (unknownIdMsg 1) ∧
    (enginePlay 1 (engineInit [(2, "song.mp3")] ["song.mp3"])).1.liveTasks =
      (engineInit [(2, "song.mp3")] ["song.mp3"]).liveTasks ∧
    (enginePlay 2 (enginePlay 1 (engineInit [(2, "song.mp3")] ["song.mp3"])).1).1.current_audio =
      some "song.mp3" ∧
    (enginePlay 2 (enginePlay 1 (engineInit [(2, "song.mp3")] ["song.mp3"])).1).1.liveTasks =
      ["song.mp3"] ∧
    Eff.spawnTask "song.mp3" ∈
      (enginePlay 2 (enginePlay 1 (engineInit [(2, "song.mp3")] ["song.mp3"])).1).2 ∧
    taskCheck (enginePlay 2 (enginePlay 1 (engineInit [(2, "song.mp3")] ["song.mp3"])).1).1 =
      ((enginePlay 2 (enginePlay 1 (engineInit [(2, "song.mp3")] ["song.mp3"])).1).1,
        [Eff.loadMusic "song.mp3", Eff.playMusic]) :=
  unknown_id_error_then_recovery (engineInit [(2, "song.mp3")] ["song.mp3"]) 1 2 "song.mp3"
    (by decide) (by decide) (by decide)

/-- Claim C5 counterexample: with id 1 mapped to "song.mp3" and the
media directory empty, play(1) returns with the shared state equal to
Playing("song.mp3") (current_audio = some "song.mp3", not the
file-not-found error): _play_audio_track assigns current_audio before
the spawned thread performs the existence check, so the Playing state
for the missing file IS observably entered, contrary to the claim. -/
theorem missing_file_playing_state_cex :
    "song.mp3" ∉ (engineInit [(1, "song.mp3")] []).media ∧
    getFile (engineInit [(1, "song.mp3")] []).mapping 1 = some "song.mp3" ∧
    (enginePlay 1 (engineInit [(1, "song.mp3")] [])).1.current_audio = some "song.mp3" ∧
    some "song.mp3" ≠ some (fileNotFoundMsg "song.mp3") := by
  refine ⟨by decide, by decide, by decide, by decide⟩

/-- Claim C5 amended: the playback task checks the file's existence
before any audio load or play call; for a file absent from the media
directory the state after the check is Error("File not found: f"), the
task has exited, and no load or play effect was performed -- but the
shared state transiently holds Playing(f) between play's assignment and
the task's check. -/
theorem missing_file_error_no_audio_io (e : Engine) (f : String)
    (hf : f ∉ e.media) :
    (taskCheck (playAudioTrack f e).1).1.current_audio = some (fileNotFoundMsg f) ∧
    (taskCheck (playAudioTrack f e).1).1.liveTasks = [] ∧
    (∀ g, Eff.loadMusic g ∉ (playAudioTrack f e).2 ++ (taskCheck (playAudioTrack f e).1).2) ∧
    Eff.playMusic ∉ (playAudioTrack f e).2 ++ (taskCheck (playAudioTrack f e).1).2 := by
  have hc : taskCheck (playAudioTrack f e).1 =
      (taskExit f { (playAudioTrack f e).1 with
         current_audio := some (fileNotFoundMsg f) }, []) :=
    taskCheck_missing _ f (playAudioTrack_liveTasks f e)
      (by rw [playAudioTrack_media]; exact hf)
  rw [hc, playAudioTrack_effects]
  refine ⟨?_, ?_, ?_, ?_⟩
  · simp [taskExit, taskFinallyClear, fileNotFoundMsg_ne f]
  · simp [taskExit, playAudioTrack_liveTasks]
  · intro g
    simp
  · simp

theorem missing_file_error_no_audio_io_witness :
    (taskCheck (playAudioTrack "song.mp3" (engineInit [] [])).1).1.current_audio =
      some (fileNotFoundMsg "song.mp3") ∧
    (taskCheck (playAudioTrack "song.mp3" (engineInit [] [])).1).1.liveTasks = [] ∧
    (∀ g, Eff.loadMusic g ∉ (playAudioTrack "song.mp3" (engineInit [] [])).2 ++
       (taskCheck (playAudioTrack "song.mp3" (engineInit [] [])).1).2) ∧
    Eff.playMusic ∉ (playAudioTrack "song.mp3" (engineInit [] [])).2 ++
      (taskCheck (playAudioTrack "song.mp3" (engineInit [] [])).1).2 :=
  missing_file_error_no_audio_io (engineInit [] []) "song.mp3" (by decide)

/-- Claim C6: the finally-block of a playback task for track f resets
the shared state to Idle only if the state still refers to f; if a newer
play has set it to a different track g, the completing task leaves it
unchanged. -/
theorem stale_completion_guard (f : String) (e : Engine) :
    (e.current_audio = some f → (taskExit f e).current_audio = none) ∧
    (∀ g, e.current_audio = some g → g ≠ f →
       (taskExit f e).current_audio = some g) := by
  constructor
  · intro h
    simp [taskExit, taskFinallyClear, h]
  · intro g hg hne
    simp [taskExit, taskFinallyClear, hg, hne]

theorem stale_completion_guard_witness :
    (taskExit "a.mp3" ⟨[], [], some "a.mp3", true, ["a.mp3"]⟩).current_audio = none ∧
    (taskExit "a.mp3" ⟨[], [], some "b.mp3", true, ["a.mp3"]⟩).current_audio = some "b.mp3" :=
  ⟨(stale_completion_guard "a.mp3" ⟨[], [], some "a.mp3", true, ["a.mp3"]⟩).1 rfl,
   (stale_completion_guard "a.mp3" ⟨[], [], some "b.mp3", true, ["a.mp3"]⟩).2 "b.mp3" rfl
     (by decide)⟩

/-- Claim C7 counterexample: a single I/O exception inside
read_with_timeout (followed by an observed cancellation) performs one
hardware reset immediately and leaves consecutive_errors at 0: contrary
to the claim, this reader I/O exception does not increment the
consecutive-error counter, and a reset happens although the counter
never reached max_consecutive_errors = 3. -/
theorem rwt_reset_without_counter_cex :
    readWithTimeout 30 3 [⟨1, false, PollResult.err⟩, ⟨2, true, PollResult.noTag⟩]
      ⟨0, 0, 0⟩ = (some none, ⟨1, 1, 0⟩) := by
  decide

/-- Claim C7 amended: exceptions handled by _handle_read_error (the
read_tag / read_tag_no_block paths) increment consecutive_errors, and
when it reaches max_consecutive_errors = 3 exactly one reset is
performed and the counter is cleared to zero; read_with_timeout instead
keeps a local retries counter, performs a hardware reset on every
exception, and leaves consecutive_errors unchanged. -/
theorem reader_error_handling_amended (r : Reader) (timeout maxRetries el : Nat)
    (ts : List RwtTick) (st : RwtState)
    (hmax : r.max_consecutive_errors = 3)
    (hel : el ≤ timeout) (hr : st.retries < maxRetries) :
    ((handleReadError r).1.consecutive_errors =
       if r.consecutive_errors + 1 ≥ 3 then 0 else r.consecutive_errors + 1) ∧
    ((handleReadError r).2 = if r.consecutive_errors + 1 ≥ 3 then 1 else 0) ∧
    readWithTimeout timeout maxRetries (⟨el, false, PollResult.err⟩ :: ts) st =
      readWithTimeout timeout maxRetries ts
        ⟨st.retries + 1, st.resets + 1, st.consecutive_errors⟩ := by
  refine ⟨?_, ?_, ?_⟩
  · rw [handleReadError, hmax]
    by_cases h : r.consecutive_errors + 1 ≥ 3
    · rw [if_pos h, if_pos h]
    · rw [if_neg h, if_neg h]
  · rw [handleReadError, hmax]
    by_cases h : r.consecutive_errors + 1 ≥ 3
    · rw [if_pos h, if_pos h]
    · rw [if_neg h, if_neg h]
  · have hto : ¬(timeout ≠ 0 ∧ timeout < el) := by
      intro hc
      omega
    have hretry : ¬(maxRetries < st.retries + 1) := by omega
    simp only [readWithTimeout]
    rw [if_neg hto]
    simp only [Bool.false_eq_true, if_false]
    rw [if_neg hretry]

theorem reader_error_handling_amended_witness :
    ((handleReadError ⟨2, 3⟩).1.consecutive_errors =
       if 2 + 1 ≥ 3 then 0 else 2 + 1) ∧
    ((handleReadError ⟨2, 3⟩).2 = if 2 + 1 ≥ 3 then 1 else 0) ∧
    readWithTimeout 30 3 [⟨1, false, PollResult.err⟩] ⟨0, 0, 0⟩ =
      readWithTimeout 30 3 [] ⟨0 + 1, 0 + 1, 0⟩ :=
  reader_error_handling_amended ⟨2, 3⟩ 30 3 1 [] ⟨0, 0, 0⟩ rfl (by decide) (by decide)

/-- Claim C8: read_with_timeout returns (None, None) whenever the cancel
signal is observed, regardless of elapsed time versus the configured
timeout; likewise when a nonzero timeout has elapsed; and any return
from a run in which no tag was ever read is (None, None). -/
theorem read_cancel_or_timeout_returns_none (timeout maxRetries : Nat) :
    (∀ (t : RwtTick) (ts : List RwtTick) (st : RwtState), t.cancelled = true →
       (readWithTimeout timeout maxRetries (t :: ts) st).1 = some none) ∧
    (∀ (t : RwtTick) (ts : List RwtTick) (st : RwtState),
       timeout ≠ 0 → timeout < t.elapsed →
       (readWithTimeout timeout maxRetries (t :: ts) st).1 = some none) ∧
    (∀ (ts : List RwtTick) (st : RwtState),
       (∀ u ∈ ts, ∀ id, u.poll ≠ PollResult.tag id) →
       ∀ r, (readWithTimeout timeout maxRetries ts st).1 = some r → r = none) := by
  refine ⟨?_, ?_, ?_⟩
  · intro t ts st hc
    simp only [readWithTimeout]
    by_cases h : timeout ≠ 0 ∧ timeout < t.elapsed
    · rw [if_pos h]
    · rw [if_neg h, hc]
      simp
  · intro t ts st h0 hel
    simp only [readWithTimeout]
    rw [if_pos ⟨h0, hel⟩]
  · intro ts
    induction ts with
    | nil =>
      intro st hno r hr
      simp [readWithTimeout] at hr
    | cons t rest ih =>
      intro st hno r hr
      simp only [readWithTimeout] at hr
      by_cases h : timeout ≠ 0 ∧ timeout < t.elapsed
      · rw [if_pos h] at hr
        simpa using hr.symm
      · rw [if_neg h] at hr
        by_cases hc : t.cancelled = true
        · rw [hc] at hr
          simp at hr
          exact hr.symm
        · rw [if_neg hc] at hr
          have hnt := hno t (List.mem_cons_self t rest)
          cases hp : t.poll with
          | tag id => exact absurd hp (hnt id)
          | noTag =>
            rw [hp] at hr
            exact ih st (fun u hu => hno u (List.mem_cons_of_mem t hu)) r hr
          | err =>
            rw [hp] at hr
            by_cases hm : maxRetries < st.retries + 1
            · rw [if_pos hm] at hr
              simp at hr
              exact hr.symm
            · rw [if_neg hm] at hr
              exact ih _ (fun u hu => hno u (List.mem_cons_of_mem t hu)) r hr

theorem read_cancel_or_timeout_returns_none_witness :
    (readWithTimeout 30 3 [⟨1, true, PollResult.noTag⟩] ⟨0, 0, 0⟩).1 = some none ∧
    (readWithTimeout 30 3 [⟨31, false, PollResult.noTag⟩] ⟨0, 0, 0⟩).1 = some none ∧
    ∀ r, (readWithTimeout 30 3 [⟨1, false, PollResult.noTag⟩] ⟨0, 0, 0⟩).1 = some r →
      r = none :=
  ⟨(read_cancel_or_timeout_returns_none 30 3).1 ⟨1, true, PollResult.noTag⟩ [] ⟨0, 0, 0⟩ rfl,
   (read_cancel_or_timeout_returns_none 30 3).2.1 ⟨31, false, PollResult.noTag⟩ [] ⟨0, 0, 0⟩
     (by decide) (by decide),
   (read_cancel_or_timeout_returns_none 30 3).2.2 [⟨1, false, PollResult.noTag⟩] ⟨0, 0, 0⟩
     (by intro u hu id; simp at hu; subst hu; simp)⟩

/-- Claim C9: stop() when idle (no audio, no live task) raises nothing
and is a no-op beyond setting the cancellation event, leaving the state
Idle; stop() while playing transitions the state to Idle.  engineStop is
a total function: the only call that can raise inside the code path,
pg.mixer.music.stop, is wrapped in try/except. -/
theorem stop_safe_and_idle (e : Engine) :
    (e.current_audio = none → e.liveTasks = [] →
       (engineStop e).1 = { e with playback_event := true } ∧
       (engineStop e).1.current_audio = none) ∧
    (∀ f, e.current_audio = some f → e.liveTasks = [f] →
       (engineStop e).1.current_audio = none) := by
  constructor
  · intro hcur hlive
    have h : (engineStop e).1 = { e with playback_event := true } := by
      simp [engineStop, joinLive, hlive]
    exact ⟨h, by rw [h]; exact hcur⟩
  · intro f hcur hlive
    simp [engineStop, joinLive, hlive, taskFinallyClear, hcur]

theorem stop_safe_and_idle_witness :
    ((engineStop (engineInit [] [])).1 =
       { engineInit [] [] with playback_event := true } ∧
     (engineStop (engineInit [] [])).1.current_audio = none) ∧
    (engineStop ⟨[], [], some "a.mp3", false, ["a.mp3"]⟩).1.current_audio = none :=
  ⟨(stop_safe_and_idle (engineInit [] [])).1 rfl rfl,
   (stop_safe_and_idle ⟨[], [], some "a.mp3", false, ["a.mp3"]⟩).2 "a.mp3" rfl rfl⟩

/-- Claim C10: set_volume clamps its argument to [0, 100] before
applying it to the mixer, stores the clamped value, and returns True
on success; get_volume then reports that stored value, which is always
within 0 and 100. -/
theorem set_volume_clamps_and_stores (s : VolumeState) (v : Int) :
    (setVolume s v false).1 = true ∧
    getVolume (setVolume s v false).2.1 = max 0 (min 100 v) ∧
    0 ≤ getVolume (setVolume s v false).2.1 ∧
    getVolume (setVolume s v false).2.1 ≤ 100 ∧
    (setVolume s v false).2.2 = [max 0 (min 100 v)] := by
  refine ⟨rfl, rfl, ?_, ?_, rfl⟩
  · show (0 : Int) ≤ max 0 (min 100 v)
    omega
  · show max 0 (min 100 v) ≤ (100 : Int)
    omega

end Toniebox
